import Mathlib

/-!
Shallow embedding of the pulp_deb repository synchronization engine
(pulp_deb/plugins/importers/sync.py) and of the publish progress report
(pulp_deb/common/publish_progress.py), with theorems about reconciliation,
progress reporting and per-package failure isolation.

Machine-level collaborators (downloader, store conduit, progress sink,
metadata parser) are modelled as explicit outcome oracles in an Env record,
and the mutable run objects as explicit state records.
-/

namespace PulpDeb

/-- Progress phase states: the STATE_NOT_STARTED, STATE_RUNNING, STATE_SUCCESS,
STATE_FAILED and STATE_SKIPPED string constants of constants.py. -/
inductive PState
  | notStarted
  | running
  | success
  | failed
  | skipped
deriving DecidableEq, Repr

/-- Errors raised by collaborators during a run: transport failures from the
fetch layer, parse failures from the metadata model, configuration errors from
the downloader factory and store failures from the conduit (spec error
taxonomy, section 7). -/
inductive Exn
  | fetchError (resource : String)
  | parseError (msg : String)
  | configError (msg : String)
  | storeError (msg : String)
deriving DecidableEq, Repr

/-- Modelled from the spec: reporting.format_exception (reporting.py is not
under src/); renders an error as serialisable human-readable text.  On an
already textual representation it is the identity, matching the docstring of
from_progress_dict which says round-tripped errors are text representations. -/
def format_exception (e : Option String) : Option String := e

/-- Modelled from the spec: reporting.format_traceback (reporting.py is not
under src/); renders a captured trace as serialisable text. -/
def format_traceback (t : Option String) : Option String := t

/-- Modelled from the spec: the human-readable text recorded for one failed
package by add_failed_package (reporting.py is not under src/). -/
def formatError : Exn → String
  | Exn.fetchError r => "fetch error: " ++ r
  | Exn.parseError m => "parse error: " ++ m
  | Exn.configError m => "configuration error: " ++ m
  | Exn.storeError m => "store error: " ++ m

/-- The publish progress report object of publish_progress.py.  The conduit
(live progress sink) is reduced to an optional opaque token, since the state
fields are what the report carries; exceptions and tracebacks are carried in
their textual representation. -/
structure PublishProgressReport where
  conduit : Option Unit
  packages_state : PState
  packages_execution_time : Option Nat
  packages_total_count : Option Nat
  packages_finished_count : Option Nat
  packages_error_count : Option Nat
  packages_individual_errors : Option (List (String × String))
  packages_error_message : Option String
  packages_exception : Option String
  packages_traceback : Option String
  metadata_state : PState
  metadata_execution_time : Option Nat
  metadata_error_message : Option String
  metadata_exception : Option String
  metadata_traceback : Option String
  publish_http : PState
  publish_https : PState
deriving DecidableEq, Repr

/-- The packages section of the snapshot dict built by
PublishProgressReport._packages_section. -/
structure PackagesSection where
  state : PState
  execution_time : Option Nat
  total_count : Option Nat
  finished_count : Option Nat
  error_count : Option Nat
  individual_errors : Option (List (String × String))
  error_message : Option String
  error : Option String
  traceback : Option String
deriving DecidableEq, Repr

/-- The metadata section of the snapshot dict built by
PublishProgressReport._metadata_section. -/
structure MetadataSection where
  state : PState
  execution_time : Option Nat
  error_message : Option String
  error : Option String
  traceback : Option String
deriving DecidableEq, Repr

/-- The publishing section of the snapshot dict built by
PublishProgressReport._publishing_section. -/
structure PublishingSection where
  http : PState
  https : PState
deriving DecidableEq, Repr

/-- The full snapshot dict built by build_progress_report. -/
structure ProgressDict where
  packages : PackagesSection
  metadata : MetadataSection
  publishing : PublishingSection
deriving DecidableEq, Repr

/-- PublishProgressReport.build_progress_report from publish_progress.py:
the serializable snapshot of all three sections. -/
def PublishProgressReport.build_progress_report (r : PublishProgressReport) :
    ProgressDict :=
  { packages :=
      { state := r.packages_state
        execution_time := r.packages_execution_time
        total_count := r.packages_total_count
        finished_count := r.packages_finished_count
        error_count := r.packages_error_count
        individual_errors := r.packages_individual_errors
        error_message := r.packages_error_message
        error := format_exception r.packages_exception
        traceback := format_traceback r.packages_traceback }
    metadata :=
      { state := r.metadata_state
        execution_time := r.metadata_execution_time
        error_message := r.metadata_error_message
        error := format_exception r.metadata_exception
        traceback := format_traceback r.metadata_traceback }
    publishing :=
      { http := r.publish_http
        https := r.publish_https } }

/-- PublishProgressReport.from_progress_dict from publish_progress.py:
reconstructs a client-side report object (conduit set to None) from a
snapshot produced by build_progress_report. -/
def PublishProgressReport.from_progress_dict (d : ProgressDict) :
    PublishProgressReport :=
  { conduit := none
    packages_state := d.packages.state
    packages_execution_time := d.packages.execution_time
    packages_total_count := d.packages.total_count
    packages_finished_count := d.packages.finished_count
    packages_error_count := d.packages.error_count
    packages_individual_errors := d.packages.individual_errors
    packages_error_message := d.packages.error_message
    packages_exception := d.packages.error
    packages_traceback := d.packages.traceback
    metadata_state := d.metadata.state
    metadata_execution_time := d.metadata.execution_time
    metadata_error_message := d.metadata.error_message
    metadata_exception := d.metadata.error
    metadata_traceback := d.metadata.traceback
    publish_http := d.publishing.http
    publish_https := d.publishing.https }

/-- The final run report handed back to the platform: outcome flag plus the
summary payload (total_execution_time); the details payload is intentionally
empty in the source and is omitted. -/
structure FinalReport where
  succeeded : Bool
  total_execution_time : Int
deriving DecidableEq, Repr

/-- PublishProgressReport.build_final_report from publish_progress.py:
total time is the sum of the metadata and packages phase times when both are
set (sentinel -1 otherwise); the outcome is success exactly when no step state
differs from success, computed over the metadata and packages states only. -/
def PublishProgressReport.build_final_report (r : PublishProgressReport) :
    FinalReport :=
  let total : Int :=
    match r.metadata_execution_time, r.packages_execution_time with
    | some a, some b => (a : Int) + (b : Int)
    | _, _ => -1
  let unsuccessful :=
    ([r.metadata_state, r.packages_state]).filter
      (fun st => decide (st ≠ PState.success))
  { succeeded := decide (unsuccessful.length = 0)
    total_execution_time := total }

/-- A concrete publish report used to instantiate theorems with hypotheses. -/
def samplePublishReport : PublishProgressReport :=
  { conduit := some ()
    packages_state := PState.success
    packages_execution_time := some 7
    packages_total_count := some 3
    packages_finished_count := some 2
    packages_error_count := some 1
    packages_individual_errors := some [("b-2.0-bob", "fetch error: b.deb")]
    packages_error_message := none
    packages_exception := none
    packages_traceback := none
    metadata_state := PState.success
    metadata_execution_time := some 5
    metadata_error_message := none
    metadata_exception := none
    metadata_traceback := none
    publish_http := PState.skipped
    publish_https := PState.notStarted }

/-- Claim C5: for every report state, build_final_report succeeds iff the
metadata phase and the packages phase are both in state success; the publish
http and https states never affect the outcome; and when both phase times are
recorded the summary carries their sum. -/
theorem publish_final_report_success_iff (r : PublishProgressReport) :
    ((r.build_final_report).succeeded = true ↔
      (r.metadata_state = PState.success ∧ r.packages_state = PState.success))
    ∧ (∀ h1 h2 : PState,
        PublishProgressReport.build_final_report
          { r with publish_http := h1, publish_https := h2 }
          = r.build_final_report)
    ∧ (∀ a b : Nat, r.metadata_execution_time = some a →
        r.packages_execution_time = some b →
        (r.build_final_report).total_execution_time = (a : Int) + (b : Int)) := by
  refine ⟨?_, ?_, ?_⟩
  · cases hm : r.metadata_state <;> cases hp : r.packages_state <;>
      simp [PublishProgressReport.build_final_report, hm, hp]
  · intro h1 h2
    rfl
  · intro a b ha hb
    simp [PublishProgressReport.build_final_report, ha, hb]

/-- Witness for C5 at a concrete report: both phases success, publish states
skipped and not-started, phase times 5 and 7. -/
theorem publish_final_report_success_iff_witness :
    (samplePublishReport.build_final_report).total_execution_time
      = (5 : Int) + (7 : Int) :=
  (publish_final_report_success_iff samplePublishReport).2.2 5 7 rfl rfl

/-- Claim C6: reconstructing a report from its snapshot via
from_progress_dict (build_progress_report r) yields a report equal to r on all
state-only fields: phase states, execution times, counts, the
individual-errors map, error messages and the http and https states; the live
conduit reference is excluded (it is dropped to none). -/
theorem progress_report_round_trip (r : PublishProgressReport) :
    (PublishProgressReport.from_progress_dict r.build_progress_report).packages_state
        = r.packages_state
    ∧ (PublishProgressReport.from_progress_dict r.build_progress_report).packages_execution_time
        = r.packages_execution_time
    ∧ (PublishProgressReport.from_progress_dict r.build_progress_report).packages_total_count
        = r.packages_total_count
    ∧ (PublishProgressReport.from_progress_dict r.build_progress_report).packages_finished_count
        = r.packages_finished_count
    ∧ (PublishProgressReport.from_progress_dict r.build_progress_report).packages_error_count
        = r.packages_error_count
    ∧ (PublishProgressReport.from_progress_dict r.build_progress_report).packages_individual_errors
        = r.packages_individual_errors
    ∧ (PublishProgressReport.from_progress_dict r.build_progress_report).packages_error_message
        = r.packages_error_message
    ∧ (PublishProgressReport.from_progress_dict r.build_progress_report).metadata_state
        = r.metadata_state
    ∧ (PublishProgressReport.from_progress_dict r.build_progress_report).metadata_execution_time
        = r.metadata_execution_time
    ∧ (PublishProgressReport.from_progress_dict r.build_progress_report).metadata_error_message
        = r.metadata_error_message
    ∧ (PublishProgressReport.from_progress_dict r.build_progress_report).publish_http
        = r.publish_http
    ∧ (PublishProgressReport.from_progress_dict r.build_progress_report).publish_https
        = r.publish_https :=
  ⟨rfl, rfl, rfl, rfl, rfl, rfl, rfl, rfl, rfl, rfl, rfl, rfl⟩

/-- An existing inventory item returned by the conduit: the unit_key dict of
an AssociatedUnit, carrying the identity-key fields package, version and
maintainer. -/
structure DebUnit where
  package : String
  version : String
  maintainer : String
deriving DecidableEq, Repr

/-- The DEB_KEY template of constants.py,
percent-package-dash-version-dash-maintainer, also inlined as unit_key_str in
_do_import_packages of sync.py. -/
def debKey (u : DebUnit) : String :=
  u.package ++ "-" ++ u.version ++ "-" ++ u.maintainer

/-- One package advertised by the remote index.  Modelled from the spec:
model.py is not under src/; a Package carries the identity-key fields, the
downloadable resources it enumerates via get_resources, and whether it is a
source package. -/
structure Package where
  package : String
  version : String
  maintainer : String
  resources : List String
  isSource : Bool
deriving DecidableEq, Repr

/-- Modelled from the spec: Package.key (model.py is not under src/), the
identity key, a deterministic composite of (package-name, version, maintainer)
rendered with the DEB_KEY template of constants.py. -/
def Package.key (p : Package) : String :=
  p.package ++ "-" ++ p.version ++ "-" ++ p.maintainer

/-- The sync progress report object used by sync.py.  Modelled from the spec:
sync_progress.py is not under src/; per spec section 4.3 the index phase
carries state, elapsed time and error details, and the package-import phase
carries state, elapsed time, counts, a per-package error map and overall error
details.  The attributes are named exactly as sync.py writes them; in
particular sync.py writes both a resource_state attribute and a state
attribute for the index phase, so both are modelled as fields. -/
structure SyncProgressReport where
  resource_state : PState
  state : PState
  error_message : Option String
  exception : Option Exn
  traceback : Option String
  execution_time : Option Nat
  packages_state : PState
  packages_execution_time : Option Nat
  packages_total_count : Option Nat
  packages_finished_count : Option Nat
  packages_error_count : Option Nat
  packages_individual_errors : List (String × String)
  packages_error_message : Option String
  packages_exception : Option Exn
  packages_traceback : Option String
deriving DecidableEq, Repr

/-- Modelled from the spec: SyncProgressReport initial state (sync_progress.py
is not under src/); every phase state field starts not-started, counters and
error details unset, the individual-error map empty. -/
def initReport : SyncProgressReport :=
  { resource_state := PState.notStarted
    state := PState.notStarted
    error_message := none
    exception := none
    traceback := none
    execution_time := none
    packages_state := PState.notStarted
    packages_execution_time := none
    packages_total_count := none
    packages_finished_count := none
    packages_error_count := none
    packages_individual_errors := []
    packages_error_message := none
    packages_exception := none
    packages_traceback := none }

/-- Modelled from the spec: SyncProgressReport.add_failed_package
(sync_progress.py is not under src/); increments the package-import error
count and records a per-package failure entry keyed by the package identity
key, formatted as human-readable text. -/
def SyncProgressReport.add_failed_package (pkg : Package) (e : Exn)
    (r : SyncProgressReport) : SyncProgressReport :=
  { r with
    packages_error_count := some (r.packages_error_count.getD 0 + 1)
    packages_individual_errors :=
      r.packages_individual_errors ++ [(pkg.key, formatError e)] }

/-- Modelled from the spec: SyncProgressReport.build_final_report
(sync_progress.py is not under src/).  Section 7 requires every fatal phase
failure to be followed by a failed-outcome final report, and section 8
requires the zero-package run, whose import phase stays not-started, to end
with overall success; the outcome rule consistent with both is that the run
fails exactly when a phase ended failed.  The summary total time combines the
two phase times as in the publish report. -/
def SyncProgressReport.build_final_report (r : SyncProgressReport) :
    FinalReport :=
  { succeeded :=
      decide (r.state ≠ PState.failed ∧ r.packages_state ≠ PState.failed)
    total_execution_time :=
      match r.execution_time, r.packages_execution_time with
      | some a, some b => (a : Int) + (b : Int)
      | _, _ => -1 }

/-- One store write performed through the sync conduit. -/
inductive StoreOp
  | initUnit (key : String)
  | saveUnit (key : String)
  | linkUnit (parent child : String)
  | removeUnit (key : String)
deriving DecidableEq, Repr

/-- True exactly on remove_unit operations. -/
def isRemoveOp : StoreOp → Bool
  | StoreOp.removeUnit _ => true
  | _ => false

/-- The mutable state owned by one PackageSyncRun: its progress report, the
package list of its Distribution, the log of store writes made through the
conduit, and the log of snapshots pushed to the progress sink. -/
structure RunState where
  report : SyncProgressReport
  packages : List Package
  storeOps : List StoreOp
  pushes : List SyncProgressReport

/-- Modelled from the spec: a fresh run constructs its Distribution from the
configuration with an empty package list (model.py is not under src/; the
package list is populated only by update_from_resources), a fresh report and
no store writes or pushes yet. -/
def initState : RunState :=
  { report := initReport
    packages := []
    storeOps := []
    pushes := [] }

/-- Outcomes of the collaborators a run calls into: the downloader factory,
the index download, the metadata parse, the per-package download-and-persist
sequence, the conduit inventory, the phase durations and the run
configuration (remove_missing key, absent when none). -/
structure Env where
  downloaderOk : Except Exn Unit
  indexFetch : Except Exn (List String)
  parse : List String → Except Exn (List Package)
  indexDuration : Nat
  importDuration : Nat
  existingUnits : List DebUnit
  importOutcome : String → Except Exn Unit
  removeMissingConfig : Option Bool

/-- update_progress: pushes the current full report snapshot to the sink. -/
def updateProgress (s : RunState) : RunState :=
  { s with pushes := s.pushes ++ [s.report] }

/-- The downloader creation followed by the index download, the body of the
first try block of _update_dist in sync.py: a factory error or a download
error is caught by the same handler. -/
def indexFetchResult (env : Env) : Except Exn (List String) :=
  match env.downloaderOk with
  | Except.error e => Except.error e
  | Except.ok _ => env.indexFetch

/-- _update_dist from sync.py: marks resource_state running and pushes, then
downloads the index resources; on a download error records failure on the
state attribute with message, exception, traceback and elapsed time and
pushes; otherwise parses, handling a parse error identically; on success
records state success with elapsed time, stores the parsed packages and
pushes. -/
def _update_dist (env : Env) (s : RunState) : RunState :=
  let s1 := updateProgress
    { s with report := { s.report with resource_state := PState.running } }
  match indexFetchResult env with
  | Except.error e =>
    updateProgress { s1 with report := { s1.report with
      state := PState.failed
      error_message := some "Error downloading resources"
      exception := some e
      traceback := some "traceback"
      execution_time := some env.indexDuration } }
  | Except.ok resources =>
    match env.parse resources with
    | Except.error e =>
      updateProgress { s1 with report := { s1.report with
        state := PState.failed
        error_message :=
          some "Error parsing repository packages resources document"
        exception := some e
        traceback := some "traceback"
        execution_time := some env.indexDuration } }
    | Except.ok pkgs =>
      updateProgress { s1 with
        packages := pkgs
        report := { s1.report with
          state := PState.success
          execution_time := some env.indexDuration } }

/-- _resolve_new_units from sync.py: the unit keys found remotely that are not
in the existing inventory, as the set difference found minus existing. -/
def _resolve_new_units (existing_unit_keys found_unit_keys : List String) :
    List String :=
  (found_unit_keys.filter (fun k => decide (k ∉ existing_unit_keys))).dedup

/-- _resolve_remove_units from sync.py: the unit keys in the existing
inventory that are no longer found remotely, as the set difference existing
minus found. -/
def _resolve_remove_units (existing_unit_keys found_unit_keys : List String) :
    List String :=
  (existing_unit_keys.filter (fun k => decide (k ∉ found_unit_keys))).dedup

/-- The new-unit key set computed by _do_import_packages: remote package keys
(the keys of packages_by_key) minus the existing inventory keys. -/
def newUnitKeys (env : Env) (pkgs : List Package) : List String :=
  _resolve_new_units (env.existingUnits.map debKey)
    ((pkgs.map Package.key).dedup)

/-- The remove-unit key set computed by _do_import_packages: existing
inventory keys minus the remote package keys. -/
def removeUnitKeys (env : Env) (pkgs : List Package) : List String :=
  _resolve_remove_units (env.existingUnits.map debKey)
    ((pkgs.map Package.key).dedup)

/-- The packages_by_key lookup of _do_import_packages; a Python dict
comprehension keeps the last entry for a duplicated key, hence the find on
the reversed list. -/
def findPkg (pkgs : List Package) (k : String) : Option Package :=
  pkgs.reverse.find? (fun p => p.key == k)

/-- The store writes performed by _add_new_package for one package: one
init_unit per resource (from _content_unit), then for a source package an
init_unit and save_unit of the parent, then a save_unit per unit with a
link_unit to the parent for source packages. -/
def addPackageOps (pkg : Package) : List StoreOp :=
  (pkg.resources.map (fun _ => StoreOp.initUnit pkg.key))
  ++ (if pkg.isSource then
        [StoreOp.initUnit pkg.key, StoreOp.saveUnit pkg.key]
      else [])
  ++ ((pkg.resources.map (fun _ =>
        StoreOp.saveUnit pkg.key ::
          (if pkg.isSource then [StoreOp.linkUnit pkg.key pkg.key] else []))).flatten)

/-- True when a per-package import outcome is a success. -/
def importOk : Except Exn Unit → Bool
  | Except.ok _ => true
  | Except.error _ => false

/-- One iteration of the per-package loop of _do_import_packages: look the
package up, try _add_new_package; on success record its store writes and
increment the finished count; on any exception call add_failed_package
instead. -/
def importStep (env : Env) (pkgs : List Package) (k : String)
    (s : RunState) : RunState :=
  match findPkg pkgs k with
  | none => s
  | some pkg =>
    match env.importOutcome k with
    | Except.ok _ =>
      { s with
        storeOps := s.storeOps ++ addPackageOps pkg
        report := { s.report with
          packages_finished_count :=
            some (s.report.packages_finished_count.getD 0 + 1) } }
    | Except.error e =>
      { s with report := s.report.add_failed_package pkg e }

/-- The per-package loop of _do_import_packages: after each package, success
or failure, a progress update is pushed. -/
def importLoop (env : Env) (pkgs : List Package) :
    List String → RunState → RunState
  | [], s => s
  | k :: rest, s =>
    importLoop env pkgs rest (updateProgress (importStep env pkgs k s))

/-- The removal loop of _do_import_packages: each doomed key is looked up in
the existing-units-by-key dict (last entry wins on duplicates) and removed
through the conduit.  The lookup cannot miss for keys produced by
_resolve_remove_units, which are drawn from the existing inventory. -/
def removeLoop (env : Env) : List String → RunState → RunState
  | [], s => s
  | k :: rest, s =>
    match env.existingUnits.reverse.find? (fun u => debKey u == k) with
    | none => s
    | some u =>
      removeLoop env rest
        { s with storeOps := s.storeOps ++ [StoreOp.removeUnit (debKey u)] }

/-- DEFAULT_REMOVE_MISSING from constants.py. -/
def DEFAULT_REMOVE_MISSING : Bool := false

/-- _should_remove_missing from sync.py: the default when the remove_missing
key is absent from the configuration, the configured boolean otherwise. -/
def _should_remove_missing (env : Env) : Bool :=
  match env.removeMissingConfig with
  | none => DEFAULT_REMOVE_MISSING
  | some b => b

/-- The run state just after _do_import_packages sets the total, finished and
error counts and pushes the first running update with real counts. -/
def countsInitState (env : Env) (s : RunState) : RunState :=
  updateProgress { s with report := { s.report with
    packages_total_count := some (newUnitKeys env s.packages).length
    packages_finished_count := some 0
    packages_error_count := some 0 } }

/-- _do_import_packages from sync.py: create the downloader (a factory error
propagates), diff the remote keys against the existing inventory, set the
counts and push the first running update, run the per-package loop, then
remove the missing units when the configuration indicates to do so. -/
def _do_import_packages (env : Env) (s : RunState) : RunState × Option Exn :=
  match env.downloaderOk with
  | Except.error e => (s, some e)
  | Except.ok _ =>
    let s3 := importLoop env s.packages (newUnitKeys env s.packages)
      (countsInitState env s)
    let s4 :=
      if _should_remove_missing env then
        removeLoop env (removeUnitKeys env s.packages) s3
      else s3
    (s4, none)

/-- _import_packages from sync.py: mark the import phase running (withholding
the push until counts are known), run _do_import_packages; when it raises,
mark the phase failed with error details and elapsed time and push; when it
returns, mark the phase success with elapsed time and push. -/
def _import_packages (env : Env) (s : RunState) : RunState :=
  let s1 := { s with report :=
    { s.report with packages_state := PState.running } }
  match _do_import_packages env s1 with
  | (s2, some e) =>
    updateProgress { s2 with report := { s2.report with
      packages_state := PState.failed
      packages_error_message := some "Error retrieving packages"
      packages_exception := some e
      packages_traceback := some "traceback"
      packages_execution_time := some env.importDuration } }
  | (s2, none) =>
    updateProgress { s2 with report := { s2.report with
      packages_state := PState.success
      packages_execution_time := some env.importDuration } }

/-- The try-block body of perform_sync in sync.py: retrieve and parse the
index, return early when the package list is empty, otherwise import.  The
second component carries an in-flight exception, none in this model since
every phase handler catches its own errors. -/
def syncBody (env : Env) (s : RunState) : RunState × Option Exn :=
  let s1 := _update_dist env s
  if s1.packages.length = 0 then (s1, none)
  else (_import_packages env s1, none)

/-- The try-finally shape of perform_sync in sync.py: whatever the body did,
and whether or not it left an in-flight exception, the finally block pushes
one final progress update and returns the built final report (a return inside
a finally block discards any in-flight exception). -/
def performSyncWith (body : RunState → RunState × Option Exn)
    (s : RunState) : FinalReport × RunState :=
  let s1 := (body s).1
  let s2 := updateProgress s1
  (s2.report.build_final_report, s2)

/-- perform_sync from sync.py. -/
def perform_sync (env : Env) (s : RunState) : FinalReport × RunState :=
  performSyncWith (syncBody env) s

/-- A run environment whose index download fails with a transport error. -/
def envFetchFail : Env :=
  { downloaderOk := Except.ok ()
    indexFetch := Except.error (Exn.fetchError "dists/stable/main/binary-amd64/Packages.gz")
    parse := fun _ => Except.ok []
    indexDuration := 1
    importDuration := 2
    existingUnits := []
    importOutcome := fun _ => Except.ok ()
    removeMissingConfig := none }

/-- A run environment whose index download and parse succeed and whose remote
index lists zero packages. -/
def envEmptyIndex : Env :=
  { downloaderOk := Except.ok ()
    indexFetch := Except.ok ["Packages.gz"]
    parse := fun _ => Except.ok []
    indexDuration := 1
    importDuration := 2
    existingUnits := []
    importOutcome := fun _ => Except.ok ()
    removeMissingConfig := none }

/-- Set-level characterisation of _resolve_new_units. -/
lemma resolve_new_toFinset (existing found : List String) :
    (_resolve_new_units existing found).toFinset
      = found.toFinset \ existing.toFinset := by
  ext k
  simp [_resolve_new_units, List.mem_dedup, List.mem_filter]

/-- Set-level characterisation of _resolve_remove_units. -/
lemma resolve_remove_toFinset (existing found : List String) :
    (_resolve_remove_units existing found).toFinset
      = existing.toFinset \ found.toFinset := by
  ext k
  simp [_resolve_remove_units, List.mem_dedup, List.mem_filter]

/-- Claim C4: for every pair of identity-key collections, _resolve_new_units
returns the set difference remote minus existing, _resolve_remove_units
returns existing minus remote, and the two returned sets are disjoint. -/
theorem resolve_units_set_difference (existing found : List String) :
    (_resolve_new_units existing found).toFinset
        = found.toFinset \ existing.toFinset
    ∧ (_resolve_remove_units existing found).toFinset
        = existing.toFinset \ found.toFinset
    ∧ ∀ k : String, ¬(k ∈ _resolve_new_units existing found
        ∧ k ∈ _resolve_remove_units existing found) := by
  refine ⟨resolve_new_toFinset existing found,
    resolve_remove_toFinset existing found, ?_⟩
  intro k hk
  obtain ⟨h1, h2⟩ := hk
  rw [_resolve_new_units, List.mem_dedup, List.mem_filter] at h1
  rw [_resolve_remove_units, List.mem_dedup, List.mem_filter] at h2
  rw [decide_eq_true_eq] at h1 h2
  exact h1.2 h2.1

/-- Claim C9 (refuted by the code): sync.py sets the attribute resource_state
to running when index retrieval begins, but on completion writes failed or
success to a different attribute, state; the field that was set to running is
never moved out of running.  Evaluated on a failing fetch and on a successful
empty fetch. -/
theorem index_state_field_mismatch :
    ((_update_dist envFetchFail initState).report.resource_state
        = PState.running
      ∧ (_update_dist envFetchFail initState).report.state = PState.failed)
    ∧ ((_update_dist envEmptyIndex initState).report.resource_state
        = PState.running
      ∧ (_update_dist envEmptyIndex initState).report.state
        = PState.success) :=
  ⟨⟨rfl, rfl⟩, ⟨rfl, rfl⟩⟩

/-- Claim C10: perform_sync never propagates an exception to its caller: for
every body of the try block, including one leaving an in-flight exception,
the finally block pushes one last progress update and the run returns the
result of build_final_report, discarding the exception, so the caller always
receives a report. -/
theorem perform_sync_always_returns_report
    (body : RunState → RunState × Option Exn) (s : RunState) :
    (performSyncWith body s).1
        = (updateProgress (body s).1).report.build_final_report
    ∧ (performSyncWith body s).2.pushes
        = (body s).1.pushes ++ [(body s).1.report]
    ∧ (∀ e : Exn,
        performSyncWith (fun t => ((body t).1, some e)) s
          = performSyncWith body s)
    ∧ (∀ env : Env, perform_sync env s = performSyncWith (syncBody env) s) :=
  ⟨rfl, rfl, fun _ => rfl, fun _ => rfl⟩

/-- Claim C2: when fetching the index resources fails, the run terminates
without starting package import: the import phase state stays not-started with
counts unset, no store write occurs, the index phase is marked failed with
error message, exception, traceback and elapsed time recorded, and progress
updates are pushed (the running push, the failure push and the final push of
the finally block). -/
theorem index_failure_fatal (env : Env) (e : Exn)
    (h : indexFetchResult env = Except.error e) :
    (perform_sync env initState).2.report.packages_state = PState.notStarted
    ∧ (perform_sync env initState).2.report.packages_total_count = none
    ∧ (perform_sync env initState).2.report.packages_finished_count = none
    ∧ (perform_sync env initState).2.storeOps = []
    ∧ (perform_sync env initState).2.report.state = PState.failed
    ∧ (perform_sync env initState).2.report.error_message
        = some "Error downloading resources"
    ∧ (perform_sync env initState).2.report.exception = some e
    ∧ (perform_sync env initState).2.report.traceback = some "traceback"
    ∧ (perform_sync env initState).2.report.execution_time
        = some env.indexDuration
    ∧ (perform_sync env initState).2.pushes.length = 3 := by
  simp [perform_sync, performSyncWith, syncBody, _update_dist, h,
    updateProgress, initState, initReport]

/-- Witness for C2 at a concrete environment whose index fetch raises a
transport error. -/
theorem index_failure_fatal_witness :
    (perform_sync envFetchFail initState).2.report.packages_state
        = PState.notStarted
    ∧ (perform_sync envFetchFail initState).2.report.packages_total_count = none
    ∧ (perform_sync envFetchFail initState).2.report.packages_finished_count = none
    ∧ (perform_sync envFetchFail initState).2.storeOps = []
    ∧ (perform_sync envFetchFail initState).2.report.state = PState.failed
    ∧ (perform_sync envFetchFail initState).2.report.error_message
        = some "Error downloading resources"
    ∧ (perform_sync envFetchFail initState).2.report.exception
        = some (Exn.fetchError "dists/stable/main/binary-amd64/Packages.gz")
    ∧ (perform_sync envFetchFail initState).2.report.traceback
        = some "traceback"
    ∧ (perform_sync envFetchFail initState).2.report.execution_time
        = some envFetchFail.indexDuration
    ∧ (perform_sync envFetchFail initState).2.pushes.length = 3 :=
  index_failure_fatal envFetchFail
    (Exn.fetchError "dists/stable/main/binary-amd64/Packages.gz") rfl

/-- Claim C3: when index retrieval and parsing succeed but the parsed package
list is empty, the run terminates without entering package import, with index
phase state success, import phase state not-started, and a final report whose
outcome is success. -/
theorem empty_repository_success (env : Env) (rs : List String)
    (h1 : indexFetchResult env = Except.ok rs)
    (h2 : env.parse rs = Except.ok []) :
    (perform_sync env initState).2.report.state = PState.success
    ∧ (perform_sync env initState).2.report.packages_state = PState.notStarted
    ∧ (perform_sync env initState).2.report.packages_total_count = none
    ∧ (perform_sync env initState).2.storeOps = []
    ∧ (perform_sync env initState).1.succeeded = true := by
  simp [perform_sync, performSyncWith, syncBody, _update_dist, h1, h2,
    updateProgress, initState, initReport,
    SyncProgressReport.build_final_report]

/-- Witness for C3 at a concrete environment whose remote index lists zero
packages. -/
theorem empty_repository_success_witness :
    (perform_sync envEmptyIndex initState).2.report.state = PState.success
    ∧ (perform_sync envEmptyIndex initState).2.report.packages_state
        = PState.notStarted
    ∧ (perform_sync envEmptyIndex initState).2.report.packages_total_count
        = none
    ∧ (perform_sync envEmptyIndex initState).2.storeOps = []
    ∧ (perform_sync envEmptyIndex initState).1.succeeded = true :=
  empty_repository_success envEmptyIndex ["Packages.gz"] rfl rfl

/-- An in-flight exception escapes _do_import_packages exactly when the
downloader factory raised; the per-package loop and the removal loop never
raise in this model. -/
lemma doImportPackages_snd (env : Env) (s : RunState) :
    (_do_import_packages env s).2
      = (match env.downloaderOk with
        | Except.error e => some e
        | Except.ok _ => none) := by
  cases h : env.downloaderOk with
  | error e => simp [_do_import_packages, h]
  | ok u => simp [_do_import_packages, h]

/-- A binary package as advertised by the remote index. -/
def pkgA : Package :=
  { package := "a"
    version := "1.0"
    maintainer := "alice"
    resources := ["pool/main/a/a/a.deb"]
    isSource := false }

/-- A second binary package whose download will fail in envPartial. -/
def pkgB : Package :=
  { package := "b"
    version := "2.0"
    maintainer := "bob"
    resources := ["pool/main/b/b/b.deb"]
    isSource := false }

/-- A run environment in which importing pkgB raises an I/O failure while
everything else succeeds. -/
def envPartial : Env :=
  { downloaderOk := Except.ok ()
    indexFetch := Except.ok ["Packages.gz"]
    parse := fun _ => Except.ok [pkgA, pkgB]
    indexDuration := 1
    importDuration := 2
    existingUnits := []
    importOutcome := fun k =>
      if k = "b-2.0-bob" then Except.error (Exn.fetchError "pool/main/b/b/b.deb")
      else Except.ok ()
    removeMissingConfig := none }

/-- A run state whose Distribution already holds the parsed packages pkgA and
pkgB. -/
def statePartial : RunState :=
  { initState with packages := [pkgA, pkgB] }

/-- Claim C7: whenever _do_import_packages returns without raising, the
package-import phase state is set to success, item-level failures being
signalled only through the error count and the individual-errors map. -/
theorem import_phase_success_when_no_raise (env : Env) (s : RunState)
    (h : (_do_import_packages env s).2 = none) :
    (_import_packages env s).report.packages_state = PState.success := by
  cases hd : env.downloaderOk with
  | error e =>
    exfalso
    rw [doImportPackages_snd env s, hd] at h
    simp at h
  | ok u =>
    simp [_import_packages, _do_import_packages, hd, updateProgress]

/-- Witness for C7: in envPartial one of the two new packages fails, and the
phase still reports success with error count one and finished count one. -/
theorem import_phase_success_when_no_raise_witness :
    ((_import_packages envPartial statePartial).report.packages_state
        = PState.success)
    ∧ ((_import_packages envPartial statePartial).report.packages_error_count
        = some 1)
    ∧ ((_import_packages envPartial statePartial).report.packages_finished_count
        = some 1)
    ∧ ((_import_packages envPartial statePartial).report.packages_total_count
        = some 2) :=
  ⟨import_phase_success_when_no_raise envPartial statePartial rfl,
    by decide, by decide, by decide⟩

/-- One loop iteration never deletes entries from the individual-errors map. -/
lemma importStep_errors_mono (env : Env) (pkgs : List Package) (k : String)
    (s : RunState) (x : String × String)
    (hx : x ∈ s.report.packages_individual_errors) :
    x ∈ (importStep env pkgs k s).report.packages_individual_errors := by
  unfold importStep
  cases hf : findPkg pkgs k with
  | none => exact hx
  | some pkg =>
    cases ho : env.importOutcome k with
    | ok u => exact hx
    | error e => exact List.mem_append_left _ hx

/-- The whole loop never deletes entries from the individual-errors map. -/
lemma importLoop_errors_mono (env : Env) (pkgs : List Package) :
    ∀ (keys : List String) (s : RunState) (x : String × String),
      x ∈ s.report.packages_individual_errors →
      x ∈ (importLoop env pkgs keys s).report.packages_individual_errors := by
  intro keys
  induction keys with
  | nil => intro s x hx; exact hx
  | cons k rest ih =>
    intro s x hx
    exact ih (updateProgress (importStep env pkgs k s)) x
      (importStep_errors_mono env pkgs k s x hx)

/-- Behaviour of the per-package loop: finished count grows by the number of
successful keys, error count by the number of failed keys, one progress push
per key, and each failed key gets an individual-errors entry. -/
lemma importLoop_spec (env : Env) (pkgs : List Package) :
    ∀ (keys : List String) (s : RunState) (f0 e0 : Nat),
      s.report.packages_finished_count = some f0 →
      s.report.packages_error_count = some e0 →
      (∀ k ∈ keys, ∃ p ∈ pkgs, p.key = k) →
      (importLoop env pkgs keys s).report.packages_finished_count
          = some (f0 + (keys.filter
              (fun k => importOk (env.importOutcome k))).length)
      ∧ (importLoop env pkgs keys s).report.packages_error_count
          = some (e0 + (keys.filter
              (fun k => !importOk (env.importOutcome k))).length)
      ∧ (importLoop env pkgs keys s).pushes.length
          = s.pushes.length + keys.length
      ∧ ∀ k ∈ keys, importOk (env.importOutcome k) = false →
          ∃ msg, (k, msg) ∈
            (importLoop env pkgs keys s).report.packages_individual_errors := by
  intro keys
  induction keys with
  | nil =>
    intro s f0 e0 hf he _
    refine ⟨by simpa using hf, by simpa using he, by simp [importLoop], ?_⟩
    intro k hk
    exact absurd hk (List.not_mem_nil k)
  | cons k rest ih =>
    intro s f0 e0 hf he hcov
    obtain ⟨p, hp, hpk⟩ := hcov k (List.mem_cons_self k rest)
    have hcov2 : ∀ x ∈ rest, ∃ q ∈ pkgs, q.key = x := fun x hx =>
      hcov x (List.mem_cons_of_mem k hx)
    cases hf2 : findPkg pkgs k with
    | none =>
      exfalso
      have hall := List.find?_eq_none.mp hf2 p (List.mem_reverse.mpr hp)
      rw [hpk] at hall
      simp at hall
    | some pkg =>
      have hkey : pkg.key = k := by
        have hf3 : List.find? (fun p => p.key == k) pkgs.reverse = some pkg := hf2
        have hb := List.find?_some hf3
        simpa using hb
      have hloop : importLoop env pkgs (k :: rest) s
          = importLoop env pkgs rest (updateProgress (importStep env pkgs k s)) :=
        rfl
      cases ho : env.importOutcome k with
      | ok u =>
        have hfin1 : (importStep env pkgs k s).report.packages_finished_count
            = some (f0 + 1) := by
          simp [importStep, hf2, ho, hf]
        have herr1 : (importStep env pkgs k s).report.packages_error_count
            = some e0 := by
          simp [importStep, hf2, ho, he]
        have hpush1 : (importStep env pkgs k s).pushes = s.pushes := by
          simp [importStep, hf2, ho]
        obtain ⟨c1, c2, c3, c4⟩ := ih (updateProgress (importStep env pkgs k s))
          (f0 + 1) e0 hfin1 herr1 hcov2
        refine ⟨?_, ?_, ?_, ?_⟩
        · rw [hloop, c1]
          simp [List.filter_cons, ho, importOk]
          omega
        · rw [hloop, c2]
          simp [List.filter_cons, ho, importOk]
        · rw [hloop, c3]
          simp [updateProgress, hpush1]
          omega
        · intro x hx hxo
          rcases List.mem_cons.mp hx with hx1 | hx1
          · subst hx1
            rw [ho] at hxo
            simp [importOk] at hxo
          · rw [hloop]
            exact c4 x hx1 hxo
      | error e =>
        have hfin1 : (importStep env pkgs k s).report.packages_finished_count
            = some f0 := by
          simp [importStep, hf2, ho, SyncProgressReport.add_failed_package, hf]
        have herr1 : (importStep env pkgs k s).report.packages_error_count
            = some (e0 + 1) := by
          simp [importStep, hf2, ho, SyncProgressReport.add_failed_package, he]
        have hpush1 : (importStep env pkgs k s).pushes = s.pushes := by
          simp [importStep, hf2, ho, SyncProgressReport.add_failed_package]
        have hmem1 : (k, formatError e) ∈
            (importStep env pkgs k s).report.packages_individual_errors := by
          simp [importStep, hf2, ho, SyncProgressReport.add_failed_package, hkey]
        obtain ⟨c1, c2, c3, c4⟩ := ih (updateProgress (importStep env pkgs k s))
          f0 (e0 + 1) hfin1 herr1 hcov2
        refine ⟨?_, ?_, ?_, ?_⟩
        · rw [hloop, c1]
          simp [List.filter_cons, ho, importOk]
        · rw [hloop, c2]
          simp [List.filter_cons, ho, importOk]
          omega
        · rw [hloop, c3]
          simp [updateProgress, hpush1]
          omega
        · intro x hx hxo
          rcases List.mem_cons.mp hx with hx1 | hx1
          · rw [hx1]
            refine ⟨formatError e, ?_⟩
            rw [hloop]
            exact importLoop_errors_mono env pkgs rest
              (updateProgress (importStep env pkgs k s)) (k, formatError e) hmem1
          · rw [hloop]
            exact c4 x hx1 hxo

/-- Every new-unit key is the key of some package of the Distribution. -/
lemma newUnitKeys_sub (env : Env) (pkgs : List Package) :
    ∀ k ∈ newUnitKeys env pkgs, ∃ p ∈ pkgs, p.key = k := by
  intro k hk
  unfold newUnitKeys _resolve_new_units at hk
  rw [List.mem_dedup, List.mem_filter] at hk
  have hk2 := hk.1
  rw [List.mem_dedup, List.mem_map] at hk2
  obtain ⟨p, hp, hpe⟩ := hk2
  exact ⟨p, hp, hpe⟩

/-- The removal loop touches only the store-operation log. -/
lemma removeLoop_report (env : Env) :
    ∀ (keys : List String) (s : RunState),
      (removeLoop env keys s).report = s.report
      ∧ (removeLoop env keys s).pushes = s.pushes := by
  intro keys
  induction keys with
  | nil => intro s; exact ⟨rfl, rfl⟩
  | cons k rest ih =>
    intro s
    unfold removeLoop
    cases env.existingUnits.reverse.find? (fun u => debKey u == k) with
    | none => exact ⟨rfl, rfl⟩
    | some u =>
      exact ih { s with
        storeOps := s.storeOps ++ [StoreOp.removeUnit (debKey u)] }

/-- Claim C1: over the new-unit key set, a failing package import calls
add_failed_package (its key gains an individual-errors entry and the error
count grows) without incrementing the finished count, a successful import
increments the finished count, every package is processed (no failure aborts
the loop) and a progress update is pushed after each package on top of the
first running push. -/
theorem import_loop_isolates_failures (env : Env) (s : RunState)
    (hd : env.downloaderOk = Except.ok ()) :
    ((_do_import_packages env s).1).report.packages_finished_count
        = some (((newUnitKeys env s.packages).filter
            (fun k => importOk (env.importOutcome k))).length)
    ∧ ((_do_import_packages env s).1).report.packages_error_count
        = some (((newUnitKeys env s.packages).filter
            (fun k => !importOk (env.importOutcome k))).length)
    ∧ ((_do_import_packages env s).1).pushes.length
        = s.pushes.length + 1 + (newUnitKeys env s.packages).length
    ∧ (∀ k ∈ newUnitKeys env s.packages,
        importOk (env.importOutcome k) = false →
        ∃ msg, (k, msg) ∈
          ((_do_import_packages env s).1).report.packages_individual_errors) := by
  have h1 : (_do_import_packages env s).1
      = (if _should_remove_missing env then
          removeLoop env (removeUnitKeys env s.packages)
            (importLoop env s.packages (newUnitKeys env s.packages)
              (countsInitState env s))
        else importLoop env s.packages (newUnitKeys env s.packages)
              (countsInitState env s)) := by
    simp [_do_import_packages, hd]
  have hrep : ((_do_import_packages env s).1).report
      = (importLoop env s.packages (newUnitKeys env s.packages)
          (countsInitState env s)).report := by
    rw [h1]
    split
    · exact (removeLoop_report env (removeUnitKeys env s.packages) _).1
    · rfl
  have hpush : ((_do_import_packages env s).1).pushes
      = (importLoop env s.packages (newUnitKeys env s.packages)
          (countsInitState env s)).pushes := by
    rw [h1]
    split
    · exact (removeLoop_report env (removeUnitKeys env s.packages) _).2
    · rfl
  obtain ⟨c1, c2, c3, c4⟩ := importLoop_spec env s.packages
    (newUnitKeys env s.packages) (countsInitState env s) 0 0 rfl rfl
    (newUnitKeys_sub env s.packages)
  refine ⟨?_, ?_, ?_, ?_⟩
  · rw [hrep, c1]
    simp
  · rw [hrep, c2]
    simp
  · rw [hpush, c3]
    simp [countsInitState, updateProgress]
  · intro k hk hko
    obtain ⟨msg, hmsg⟩ := c4 k hk hko
    refine ⟨msg, ?_⟩
    rw [hrep]
    exact hmsg

/-- Witness for C1 at a concrete environment in which importing pkgB fails
while pkgA succeeds. -/
theorem import_loop_isolates_failures_witness :
    ((_do_import_packages envPartial statePartial).1).report.packages_finished_count
        = some (((newUnitKeys envPartial statePartial.packages).filter
            (fun k => importOk (envPartial.importOutcome k))).length)
    ∧ ((_do_import_packages envPartial statePartial).1).report.packages_error_count
        = some (((newUnitKeys envPartial statePartial.packages).filter
            (fun k => !importOk (envPartial.importOutcome k))).length)
    ∧ ((_do_import_packages envPartial statePartial).1).pushes.length
        = statePartial.pushes.length + 1
          + (newUnitKeys envPartial statePartial.packages).length
    ∧ (∀ k ∈ newUnitKeys envPartial statePartial.packages,
        importOk (envPartial.importOutcome k) = false →
        ∃ msg, (k, msg) ∈
          ((_do_import_packages envPartial statePartial).1).report.packages_individual_errors) :=
  import_loop_isolates_failures envPartial statePartial rfl

/-- _add_new_package only initialises, saves and links units. -/
lemma addPackageOps_not_remove (pkg : Package) :
    ∀ op ∈ addPackageOps pkg, isRemoveOp op = false := by
  intro op hop
  unfold addPackageOps at hop
  rcases List.mem_append.mp hop with h12 | h3
  · rcases List.mem_append.mp h12 with h1 | h2
    · obtain ⟨r, hr, he⟩ := List.mem_map.mp h1
      rw [← he]
      rfl
    · by_cases hs : pkg.isSource
      · rw [if_pos hs] at h2
        rcases List.mem_cons.mp h2 with h | h
        · rw [h]; rfl
        · rcases List.mem_cons.mp h with h4 | h4
          · rw [h4]; rfl
          · exact absurd h4 (List.not_mem_nil op)
      · rw [if_neg hs] at h2
        exact absurd h2 (List.not_mem_nil op)
  · obtain ⟨l, hl, hop2⟩ := List.mem_flatten.mp h3
    obtain ⟨r, hr, he⟩ := List.mem_map.mp hl
    rw [← he] at hop2
    rcases List.mem_cons.mp hop2 with h | h
    · rw [h]; rfl
    · by_cases hs : pkg.isSource
      · rw [if_pos hs] at h
        rcases List.mem_cons.mp h with h4 | h4
        · rw [h4]; rfl
        · exact absurd h4 (List.not_mem_nil op)
      · rw [if_neg hs] at h
        exact absurd h (List.not_mem_nil op)

/-- One loop iteration appends only non-removal store writes. -/
lemma importStep_ops (env : Env) (pkgs : List Package) (k : String)
    (s : RunState) :
    ∃ adds, (importStep env pkgs k s).storeOps = s.storeOps ++ adds
      ∧ ∀ op ∈ adds, isRemoveOp op = false := by
  unfold importStep
  cases findPkg pkgs k with
  | none => exact ⟨[], by simp, by simp⟩
  | some pkg =>
    cases env.importOutcome k with
    | ok u => exact ⟨addPackageOps pkg, rfl, addPackageOps_not_remove pkg⟩
    | error e => exact ⟨[], by simp, by simp⟩

/-- The whole per-package loop appends only non-removal store writes. -/
lemma importLoop_ops (env : Env) (pkgs : List Package) :
    ∀ (keys : List String) (s : RunState),
      ∃ adds, (importLoop env pkgs keys s).storeOps = s.storeOps ++ adds
        ∧ ∀ op ∈ adds, isRemoveOp op = false := by
  intro keys
  induction keys with
  | nil => intro s; exact ⟨[], by simp [importLoop], by simp⟩
  | cons k rest ih =>
    intro s
    obtain ⟨adds0, ha0, hn0⟩ := importStep_ops env pkgs k s
    obtain ⟨adds1, ha1, hn1⟩ := ih (updateProgress (importStep env pkgs k s))
    refine ⟨adds0 ++ adds1, ?_, ?_⟩
    · have : (updateProgress (importStep env pkgs k s)).storeOps
          = s.storeOps ++ adds0 := ha0
      rw [importLoop, ha1, this, List.append_assoc]
    · intro op hop
      rcases List.mem_append.mp hop with h | h
      · exact hn0 op h
      · exact hn1 op h

/-- Every remove-unit key is an existing inventory key. -/
lemma removeUnitKeys_sub (env : Env) (pkgs : List Package) :
    ∀ k ∈ removeUnitKeys env pkgs, k ∈ env.existingUnits.map debKey := by
  intro k hk
  unfold removeUnitKeys _resolve_remove_units at hk
  rw [List.mem_dedup, List.mem_filter] at hk
  exact hk.1

/-- When every key is an existing inventory key, the removal loop removes
exactly those keys, in order. -/
lemma removeLoop_ops (env : Env) :
    ∀ (keys : List String) (s : RunState),
      (∀ k ∈ keys, k ∈ env.existingUnits.map debKey) →
      (removeLoop env keys s).storeOps
        = s.storeOps ++ keys.map StoreOp.removeUnit := by
  intro keys
  induction keys with
  | nil => intro s _; simp [removeLoop]
  | cons k rest ih =>
    intro s hcov
    have hk := hcov k (List.mem_cons_self k rest)
    rw [List.mem_map] at hk
    obtain ⟨u, hu, hku⟩ := hk
    cases hf : env.existingUnits.reverse.find? (fun v => debKey v == k) with
    | none =>
      exfalso
      have hall := List.find?_eq_none.mp hf u (List.mem_reverse.mpr hu)
      rw [hku] at hall
      simp at hall
    | some v =>
      have hv : debKey v = k := by
        have hf3 : List.find? (fun w => debKey w == k) env.existingUnits.reverse
            = some v := hf
        have hb := List.find?_some hf3
        simpa using hb
      have hred : removeLoop env (k :: rest) s
          = removeLoop env rest
              { s with storeOps :=
                  s.storeOps ++ [StoreOp.removeUnit (debKey v)] } := by
        simp only [removeLoop, hf]
      rw [hred, ih _ (fun x hx => hcov x (List.mem_cons_of_mem k hx)), hv]
      simp

/-- Claim C8: removal of missing packages happens only when the
remove_missing option is configured true (its default, when absent, is
false); when it happens, the removal operations come strictly after all
store writes of the new-package processing and remove exactly the keys of
the missing set, existing inventory minus remote. -/
theorem remove_missing_policy (env : Env) (s : RunState) :
    (env.removeMissingConfig = none → _should_remove_missing env = false)
    ∧ (_should_remove_missing env = false →
        ∃ adds, ((_do_import_packages env s).1).storeOps = s.storeOps ++ adds
          ∧ ∀ op ∈ adds, isRemoveOp op = false)
    ∧ (_should_remove_missing env = true → env.downloaderOk = Except.ok () →
        ∃ adds, ((_do_import_packages env s).1).storeOps
            = s.storeOps ++ adds
              ++ (removeUnitKeys env s.packages).map StoreOp.removeUnit
          ∧ (∀ op ∈ adds, isRemoveOp op = false)
          ∧ (removeUnitKeys env s.packages).toFinset
              = (env.existingUnits.map debKey).toFinset
                \ (s.packages.map Package.key).toFinset) := by
  refine ⟨?_, ?_, ?_⟩
  · intro hc
    simp [_should_remove_missing, hc, DEFAULT_REMOVE_MISSING]
  · intro hrm
    cases hd : env.downloaderOk with
    | error e =>
      refine ⟨[], ?_, by simp⟩
      simp [_do_import_packages, hd]
    | ok u =>
      have h1 : (_do_import_packages env s).1
          = importLoop env s.packages (newUnitKeys env s.packages)
              (countsInitState env s) := by
        simp [_do_import_packages, hd, hrm]
      obtain ⟨adds, ha, hn⟩ := importLoop_ops env s.packages
        (newUnitKeys env s.packages) (countsInitState env s)
      refine ⟨adds, ?_, hn⟩
      rw [h1, ha]
      rfl
  · intro hrm hd
    have h1 : (_do_import_packages env s).1
        = removeLoop env (removeUnitKeys env s.packages)
            (importLoop env s.packages (newUnitKeys env s.packages)
              (countsInitState env s)) := by
      simp [_do_import_packages, hd, hrm]
    obtain ⟨adds, ha, hn⟩ := importLoop_ops env s.packages
      (newUnitKeys env s.packages) (countsInitState env s)
    refine ⟨adds, ?_, hn, ?_⟩
    · rw [h1, removeLoop_ops env (removeUnitKeys env s.packages) _
        (removeUnitKeys_sub env s.packages), ha]
      have hcnt : (countsInitState env s).storeOps = s.storeOps := rfl
      rw [hcnt, List.append_assoc]
    · ext k
      simp [removeUnitKeys, _resolve_remove_units, List.mem_dedup,
        List.mem_filter]

/-- An existing inventory unit that the remote index no longer advertises. -/
def unitC : DebUnit :=
  { package := "c"
    version := "1.0"
    maintainer := "carol" }

/-- A run environment configured with remove_missing true, holding unitC in
its existing inventory. -/
def envRemove : Env :=
  { downloaderOk := Except.ok ()
    indexFetch := Except.ok ["Packages.gz"]
    parse := fun _ => Except.ok [pkgA]
    indexDuration := 1
    importDuration := 2
    existingUnits := [unitC]
    importOutcome := fun _ => Except.ok ()
    removeMissingConfig := some true }

/-- A run state whose Distribution holds only pkgA. -/
def stateRemove : RunState :=
  { initState with packages := [pkgA] }

/-- Witness for C8: with remove_missing configured true and unitC missing
from the remote index, the store writes end with exactly the removal of
unitC's key, after the non-removal writes. -/
theorem remove_missing_policy_witness :
    ∃ adds, ((_do_import_packages envRemove stateRemove).1).storeOps
        = stateRemove.storeOps ++ adds
          ++ (removeUnitKeys envRemove stateRemove.packages).map StoreOp.removeUnit
      ∧ (∀ op ∈ adds, isRemoveOp op = false)
      ∧ (removeUnitKeys envRemove stateRemove.packages).toFinset
          = (envRemove.existingUnits.map debKey).toFinset
            \ (stateRemove.packages.map Package.key).toFinset :=
  (remove_missing_policy envRemove stateRemove).2.2 rfl rfl

end PulpDeb
